import Mathlib

/-!
Shallow embedding of the Meshery model import/export handlers
(`server/handlers/component_handler.go`: `RegisterMeshmodels`, `ExportModel`).

External collaborators (meshkit generators, the registry manager, the OS
temp-file allocator, HTTP downloads) are supplied as oracle fields of an
environment record; the handlers are embedded as pure functions from the
decoded request and that environment to a result that records the HTTP
outcome together with a trace of filesystem and registry events, in the
order the Go code performs them.  Byte contents of files are opaque to every
property proved here, so base64-decoded data is carried as the encoded text
itself; only success/failure of decoding and which paths receive writes are
modelled.
-/

namespace Meshery

/-- Embedding of Go `strconv.ParseBool`: the twelve accepted literals, any
other string is a parse error (`none`). -/
def goParseBool (s : String) : Option Bool :=
  if s = "1" ∨ s = "t" ∨ s = "T" ∨ s = "TRUE" ∨ s = "true" ∨ s = "True" then some true
  else if s = "0" ∨ s = "f" ∨ s = "F" ∨ s = "FALSE" ∨ s = "false" ∨ s = "False" then some false
  else none

/-- Embedding of Go `strconv.FormatBool`. -/
def goFormatBool (b : Bool) : String := if b then "true" else "false"

/-- Characters of the standard base64 alphabet (padding aside). -/
def isBase64StdChar (c : Char) : Bool :=
  ('A' ≤ c && c ≤ 'Z') || ('a' ≤ c && c ≤ 'z') || ('0' ≤ c && c ≤ '9') || c = '+' || c = '/'

/-- Validity of a Go `base64.StdEncoding` input: length a multiple of four,
at most two trailing padding characters, all other characters from the
standard alphabet. -/
def base64StdValid (s : String) : Bool :=
  let cs := s.data
  let pad := (cs.reverse.takeWhile (· == '=')).length
  s.length % 4 == 0 && pad ≤ 2 && (cs.take (cs.length - pad)).all isBase64StdChar

/-- Embedding of Go `base64.StdEncoding.DecodeString`.  The decoded byte
content is opaque to every claim, so the encoded text itself stands for the
decoded blob; only the success/failure split is meaningful. -/
def base64StdDecode (s : String) : Option String :=
  if base64StdValid s then some s else none

/-- Escaping performed by Go `json.Marshal` on a string value, restricted to
the characters relevant here (backslash and double quote). -/
def jsonEscape (s : String) : String :=
  String.mk (s.data.flatMap fun c =>
    if c = '\\' then ['\\', '\\'] else if c = '"' then ['\\', '"'] else [c])

/-- Embedding of Go `json.Marshal` applied to a string value: the escaped
text wrapped in double quotes.  (Marshalling a string never fails in Go.) -/
def jsonMarshalString (s : String) : String := "\"" ++ jsonEscape s ++ "\""

/-- The data-URL marker required of each CSV sheet. -/
def csvDataURLMarker : String := "data:text/csv;base64,"

/-- Embedding of Go `strings.HasPrefix p s` over character data (Go's
byte-level view and the character view agree on the ASCII inputs used
here). -/
def strIsPrefixOf (p s : String) : Bool := p.data.isPrefixOf s.data

/-- Embedding of Go `strings.TrimPrefix` (drop of the marker's length,
guarded by `strIsPrefixOf` at the call site). -/
def strDrop (s : String) (n : Nat) : String := String.mk (s.data.drop n)

/-- Embedding of Go `strings.ToLower` for the ASCII model names involved. -/
def strToLower (s : String) : String := String.mk (s.data.map Char.toLower)

/-- The Go slicing `s[1 : len(s)-1]` used to strip the quotes that
`json.Marshal` put around a string value. -/
def stripOuterQuotes (s : String) : String := String.mk ((s.data.drop 1).dropLast)

/-! ## Import request data model (`schemav1beta1.ImportRequest`) -/

/-- The inline model metadata of the `url` upload kind
(`importRequest.ImportBody.Model`). -/
structure UrlModelMeta where
  Model : String
  ModelDisplayName : String
  PrimaryColor : String
  SecondaryColor : String
  Category : String
  Registrant : String
  Shape : String
  SubCategory : String
  SvgColor : String
  SvgWhite : String
  SvgComplete : String
  annotFlag : Bool
  publishFlag : Bool
deriving DecidableEq, Repr

/-- The payload fields of an import request (`ImportBody`); each upload kind
reads only its own fields. -/
structure ImportBody where
  ModelCsv : String
  ComponentCsv : String
  RelationshipCSV : String
  Model : UrlModelMeta
  Url : String
  ModelFile : String
  FileName : String
deriving DecidableEq, Repr

/-- A decoded import request. -/
structure ImportRequest where
  UploadType : String
  Body : ImportBody
  Register : Bool
deriving DecidableEq, Repr

/-- The `meshkitRegistryUtils.ModelCSV` record built in the `url` branch.
`annotFlagStr`/`publishFlagStr` hold the `strconv.FormatBool` images of the
request booleans; `Group` is never assigned by the handler (Go zero value). -/
structure ModelCSVRec where
  Model : String
  ModelDisplayName : String
  PrimaryColor : String
  SecondaryColor : String
  Category : String
  Registrant : String
  Shape : String
  SubCategory : String
  SVGColor : String
  SVGWhite : String
  SVGComplete : String
  annotFlagStr : String
  publishFlagStr : String
  Group : String
deriving DecidableEq, Repr

/-- Construction of the `ModelCSV` record from the request metadata, exactly
as the `url` branch's struct literal does. -/
def modelCSVOfMeta (m : UrlModelMeta) : ModelCSVRec :=
  { Model := m.Model
    ModelDisplayName := m.ModelDisplayName
    PrimaryColor := m.PrimaryColor
    SecondaryColor := m.SecondaryColor
    Category := m.Category
    Registrant := m.Registrant
    Shape := m.Shape
    SubCategory := m.SubCategory
    SVGColor := m.SvgColor
    SVGWhite := m.SvgWhite
    SVGComplete := m.SvgComplete
    annotFlagStr := goFormatBool m.annotFlag
    publishFlagStr := goFormatBool m.publishFlag
    Group := "" }

/-- Default values for the unset metadata fields of a model record; the
concrete default strings live outside `src/` and are irrelevant to every
claim, so they are environment data. -/
structure ModelMetaDefaults where
  modelDisplayName : String
  primaryColor : String
  secondaryColor : String
  category : String
  registrant : String
  shape : String
  subCategory : String
  svgColor : String
  svgWhite : String
  svgComplete : String
deriving DecidableEq, Repr

/-- Modelled from the spec: `setDefaultValues` (a handlers-package helper not
under `src/`) applies defaults to any unset (empty) metadata field of the
model record; the model name is not a metadata field and is left unchanged. -/
def setDefaultValues (d : ModelMetaDefaults) (m : ModelCSVRec) : ModelCSVRec :=
  { m with
    ModelDisplayName := if m.ModelDisplayName = "" then d.modelDisplayName else m.ModelDisplayName
    PrimaryColor := if m.PrimaryColor = "" then d.primaryColor else m.PrimaryColor
    SecondaryColor := if m.SecondaryColor = "" then d.secondaryColor else m.SecondaryColor
    Category := if m.Category = "" then d.category else m.Category
    Registrant := if m.Registrant = "" then d.registrant else m.Registrant
    Shape := if m.Shape = "" then d.shape else m.Shape
    SubCategory := if m.SubCategory = "" then d.subCategory else m.SubCategory
    SVGColor := if m.SVGColor = "" then d.svgColor else m.SVGColor
    SVGWhite := if m.SVGWhite = "" then d.svgWhite else m.SVGWhite
    SVGComplete := if m.SVGComplete = "" then d.svgComplete else m.SVGComplete }

/-! ## Event traces and handler result -/

/-- The classified errors an import request can terminate with
(the handler's `handleError` / `http.Error` sites). -/
inductive ImpErrKind where
  | badRequestBody
  | fileType
  | base64Decode
  | createFile
  | writeFile
  | createDir
  | generation
  | copyDir
  | download
deriving DecidableEq, Repr

/-- The error outcome recorded by an import request: its kind and the
handler's message string. -/
structure ImpError where
  kind : ImpErrKind
  message : String
deriving DecidableEq, Repr

/-- Filesystem and registry events, in the order the handler performs them.
`fsCreate`/`fsRemove` concern temporary resources; `durableCreate` is the
`url` branch's versioned scaffold directory (a persistent location, not a
temp resource); `ensureCacheDir` is the `MkdirAll` on the registry-local
model location; `copyCache` is a successful `utils.CopyDirectory` of the
scratch root into that location; `registerDir` is a
`registrationHelper.Register` call on a `Dir`; `writeModelDef` records the
path and model name of a written model definition file. -/
inductive Ev where
  | fsCreate (path : String)
  | fsRemove (path : String)
  | durableCreate (path : String)
  | ensureCacheDir (path : String)
  | copyCache (src dst : String)
  | registerDir (path : String)
  | writeModelDef (path name : String)
deriving DecidableEq, Repr

/-- Result of an import request: the event trace and the terminal HTTP
error, if any. -/
structure ImportResult where
  events : List Ev
  httpError : Option ImpError
deriving DecidableEq, Repr

/-- Temporary paths created during the request. -/
def createdTemps (r : ImportResult) : List String :=
  r.events.filterMap fun e => match e with | .fsCreate p => some p | _ => none

/-- Temporary paths removed before the handler returned (deferred removals
included, since Go runs them at every return). -/
def removedTemps (r : ImportResult) : List String :=
  r.events.filterMap fun e => match e with | .fsRemove p => some p | _ => none

/-- Temporary paths still present on the filesystem after the handler
returned: created and never removed. -/
def residualTemps (r : ImportResult) : List String :=
  (createdTemps r).filter fun p => !(removedTemps r).contains p

/-- The `Dir` locations handed to the registration pipeline. -/
def registeredDirs (r : ImportResult) : List String :=
  r.events.filterMap fun e => match e with | .registerDir p => some p | _ => none

/-- The successful scratch-root-to-cache copies performed. -/
def cacheCopies (r : ImportResult) : List Ev :=
  r.events.filter fun e => match e with | .copyCache _ _ => true | _ => false

/-- Oracle environment for one import request: the names the OS allocates
for temporary resources, the success/failure of each external step, and the
behaviour of the external generators.  All fields are per-request data, so a
universally quantified theorem covers every behaviour of the collaborators. -/
structure ImportEnv where
  /-- Did `json.NewDecoder(r.Body).Decode` succeed? -/
  bodyDecodeOk : Bool
  /-- Did `meshkitRegistryUtils.SetLogger(false)` succeed?  (on failure the
  handler logs an error event but does not return) -/
  setLoggerOk : Bool
  /-- `os.Getenv("HOME")`. -/
  homeDir : String
  /-- `utils.RegistryLocation` (a constant defined outside `src/`). -/
  registryLocation : String
  /-- Did `os.Stat` find the registry-local model location already present? -/
  registryLocExists : Bool
  modelTmpName : String
  compTmpName : String
  relTmpName : String
  createModelTmpOk : Bool
  createCompTmpOk : Bool
  createRelTmpOk : Bool
  writeModelTmpOk : Bool
  writeCompTmpOk : Bool
  writeRelTmpOk : Bool
  /-- Name `os.MkdirTemp("", "tempData")` allocates for the scratch root. -/
  tempDirName : String
  mkTempDirOk : Bool
  /-- Did `InvokeGenerationFromSheet` succeed? -/
  generationOk : Bool
  /-- `models.GetModelDirectoryPaths(tempDir)` result (empty on its error,
  which the handler only logs). -/
  modelDirPaths : List String
  /-- Did `utils.CopyDirectory(tempDir, modelLocation)` succeed? -/
  copyOk : Bool
  /-- Defaults applied by `setDefaultValues`. -/
  defaults : ModelMetaDefaults
  /-- `meshkitRegistryUtils.GenerateModels registrant url name`, returning
  `(pkg, version)` on success. -/
  generateModels : String → String → String → Option (String × String)
  /-- Root under which `utils.CreateVersionedDirectoryForModelAndComp`
  scaffolds the versioned package directory. -/
  scaffoldRoot : String
  mkVersionedDirOk : Bool
  writeModelDefOk : Bool
  /-- `GenerateComponentsFromPkg` result: number of components on success. -/
  generateComponentsResult : Option Nat
  /-- Path `CreateTemp` (handlers-package helper) allocates for a requested
  file name. -/
  tempPathFor : String → String
  createFileTmpOk : Bool
  /-- `downloadFile url`: the body on HTTP 200, `none` on a transport error,
  a non-200 status or a body-read failure. -/
  download : String → Option String
  /-- `meshkitOci.IsOCIArtifact` on the downloaded bytes. -/
  isOCIArtifact : String → Bool
  /-- `detectFileType` (handlers-package helper): signature sniffing with a
  `.tar` default for unrecognized content. -/
  sniffFileType : String → String
  createUrlTmpOk : Bool

/-- The registry-local model location
`filepath.Join(os.Getenv("HOME"), utils.RegistryLocation)`. -/
def modelLocationOf (env : ImportEnv) : String :=
  env.homeDir ++ "/" ++ env.registryLocation

/-- The csv branch's `fetchBase64DataFromDataURL` closure: require the
`data:text/csv;base64,` marker, then base64-decode the rest.  A missing
marker is the `ErrFileType` outcome; an undecodable payload is a base64
error. -/
def fetchBase64DataFromDataURL (dataURL : String) : Except ImpErrKind String :=
  if strIsPrefixOf csvDataURLMarker dataURL then
    match base64StdDecode (strDrop dataURL csvDataURLMarker.length) with
    | some bytes => .ok bytes
    | none => .error .base64Decode
  else .error .fileType

/-! ## The four ingestion branches of `RegisterMeshmodels` -/

/-- The `"csv"` branch.  Three temp CSV files are created (each only
`Close`d via `defer`, never removed); the scratch root `tempDir` carries a
`defer os.RemoveAll`; on the `Register` path the discovered model
directories are registered and the scratch root is then copied into the
registry-local model location. -/
def csvBranch (req : ImportRequest) (env : ImportEnv) : ImportResult :=
  -- a SetLogger failure is reported but does not return (no fs effect)
  match fetchBase64DataFromDataURL req.Body.ModelCsv with
  | .error k => { events := [], httpError := some ⟨k, "Error fetching or decoding Model CSV"⟩ }
  | .ok _modelCSVData =>
  if !env.createModelTmpOk then
    { events := [], httpError := some ⟨.createFile, "Error creating temp file for Model CSV"⟩ }
  else
  -- modelCsvFile created; defer modelCsvFile.Close() (closing does not unlink)
  let ev1 : List Ev := [.fsCreate env.modelTmpName]
  if !env.writeModelTmpOk then
    { events := ev1, httpError := some ⟨.writeFile, "Error writing Model CSV to temp file"⟩ }
  else
  match fetchBase64DataFromDataURL req.Body.ComponentCsv with
  | .error k => { events := ev1, httpError := some ⟨k, "Error fetching or decoding Component CSV"⟩ }
  | .ok _componentCSVData =>
  if !env.createCompTmpOk then
    { events := ev1, httpError := some ⟨.createFile, "Error creating temp file for Component CSV"⟩ }
  else
  let ev2 : List Ev := ev1 ++ [.fsCreate env.compTmpName]
  if !env.writeCompTmpOk then
    { events := ev2, httpError := some ⟨.writeFile, "Error writing Component CSV to temp file"⟩ }
  else
  match fetchBase64DataFromDataURL req.Body.RelationshipCSV with
  | .error k => { events := ev2, httpError := some ⟨k, "Error fetching or decoding Model CSV"⟩ }
  | .ok _relationshipCSVData =>
  if !env.createRelTmpOk then
    { events := ev2, httpError := some ⟨.createFile, "Error creating temp file for Model CSV"⟩ }
  else
  let ev3 : List Ev := ev2 ++ [.fsCreate env.relTmpName]
  if !env.writeRelTmpOk then
    { events := ev3, httpError := some ⟨.writeFile, "Error writing Model CSV to temp file"⟩ }
  else
  let modelLocation := modelLocationOf env
  let ev4 : List Ev :=
    ev3 ++ (if env.registryLocExists then [] else [.ensureCacheDir modelLocation])
  if !env.mkTempDirOk then
    { events := ev4, httpError := some ⟨.createDir, "Error creating temporary directory"⟩ }
  else
  -- tempDir created; defer os.RemoveAll(tempDir) runs at every later return
  let ev5 : List Ev := ev4 ++ [.fsCreate env.tempDirName]
  if !env.generationOk then
    { events := ev5 ++ [.fsRemove env.tempDirName],
      httpError := some ⟨.generation, "Error invoking generation from sheet"⟩ }
  else
  if !req.Register then
    { events := ev5 ++ [.fsRemove env.tempDirName], httpError := none }
  else
  let ev6 : List Ev := ev5 ++ env.modelDirPaths.map .registerDir
  -- the second Stat of modelLocation finds it present (created above if absent)
  if !env.copyOk then
    { events := ev6 ++ [.fsRemove env.tempDirName],
      httpError := some ⟨.copyDir, "Error copying data to model location"⟩ }
  else
    { events := ev6 ++ [.copyCache env.tempDirName modelLocation, .fsRemove env.tempDirName],
      httpError := none }

/-- `utils.DefVersion`, the schema-definition version used for scaffolded
models (a constant defined outside `src/`; its value is irrelevant to every
claim). -/
def DefVersion : String := "v1.0.0"

/-- Modelled from the spec: `utils.CreateVersionedDirectoryForModelAndComp`
(not under `src/`) computes and creates the versioned package directory
`{modelName}/{modelVersion}/{schemaVersion}` for the given name and version,
with a `components` directory beneath it. -/
def CreateVersionedDirectoryForModelAndComp (root version name : String) : String × String :=
  let modelDirPath := root ++ "/" ++ name ++ "/" ++ version ++ "/" ++ DefVersion
  (modelDirPath, modelDirPath ++ "/components")

/-- The `"url"` branch: build the `ModelCSV` record, apply defaults,
lower-case the model name, generate the model from the URL, scaffold the
versioned directory, write the model definition, generate components, and
register the scaffold directory when `Register` is set. -/
def urlBranch (req : ImportRequest) (env : ImportEnv) : ImportResult :=
  let m1 := setDefaultValues env.defaults (modelCSVOfMeta req.Body.Model)
  -- model.Model = strings.ToLower(model.Model)
  let lowName := strToLower m1.Model
  match env.generateModels m1.Registrant req.Body.Url lowName with
  | none => { events := [], httpError := some ⟨.generation, "Error generating model"⟩ }
  | some (_pkg, version) =>
  if !env.mkVersionedDirOk then
    { events := [], httpError := some ⟨.createDir, "Error decoding JSON into ModelCSV"⟩ }
  else
  let dirs := CreateVersionedDirectoryForModelAndComp env.scaffoldRoot version lowName
  let modelDirPath := dirs.1
  let evDirs : List Ev := [.durableCreate dirs.1, .durableCreate dirs.2]
  let filePath := modelDirPath ++ "/" ++ lowName ++ ".json"
  -- modelDef := model.CreateModelDefinition(version, utils.DefVersion): the
  -- written definition's identity is the (lower-cased) model name
  if !env.writeModelDefOk then
    { events := evDirs, httpError := some ⟨.writeFile, "Error decoding JSON into ModelCSV"⟩ }
  else
  let evW : List Ev := evDirs ++ [.writeModelDef filePath lowName]
  match env.generateComponentsResult with
  | none => { events := evW, httpError := some ⟨.generation, "Error generating components"⟩ }
  | some _n =>
  if req.Register then
    { events := evW ++ [.registerDir modelDirPath], httpError := none }
  else
    { events := evW, httpError := none }

/-- The `"file"` branch: marshal the uploaded blob back to a JSON string,
strip the surrounding quotes, base64-decode, write one temp file named after
the supplied file name (`defer os.Remove` on it), and register it as a
file-handle `Dir` when `Register` is set. -/
def fileBranch (req : ImportRequest) (env : ImportEnv) : ImportResult :=
  -- json.Marshal of a string value cannot fail; the error check is dead
  let base64String := stripOuterQuotes (jsonMarshalString req.Body.ModelFile)
  match base64StdDecode base64String with
  | none => { events := [], httpError := some ⟨.base64Decode, "Invalid base64 data"⟩ }
  | some _decodedBytes =>
  if !env.createFileTmpOk then
    { events := [], httpError := some ⟨.createFile, "Error creating temp file"⟩ }
  else
  let p := env.tempPathFor req.Body.FileName
  -- defer os.Remove(tempFile.Name())
  { events := [.fsCreate p] ++ (if req.Register then [.registerDir p] else []) ++ [.fsRemove p],
    httpError := none }

/-- The `"urlImport"` branch: download the archive (any transport error,
non-200 status or read failure aborts before any file exists), classify it
as OCI or by signature sniffing, write one temp file `model.<ext>`
(`defer os.Remove` on it), and register it when `Register` is set. -/
def urlImportBranch (req : ImportRequest) (env : ImportEnv) : ImportResult :=
  match env.download req.Body.Url with
  | none => { events := [], httpError := some ⟨.download, "Error downloading file from URL"⟩ }
  | some fileData =>
  let ext := if env.isOCIArtifact fileData then ".tar" else env.sniffFileType fileData
  let name := "model" ++ ext
  if !env.createUrlTmpOk then
    { events := [], httpError := some ⟨.createFile, "Error creating temp file"⟩ }
  else
  let p := env.tempPathFor name
  -- defer os.Remove(tempFile.Name())
  { events := [.fsCreate p] ++ (if req.Register then [.registerDir p] else []) ++ [.fsRemove p],
    httpError := none }

/-- The `RegisterMeshmodels` handler: decode the request body, dispatch on
`UploadType` (an unknown tag falls through to the common response tail with
no adapter work), then aggregate and respond. -/
def RegisterMeshmodels (req : ImportRequest) (env : ImportEnv) : ImportResult :=
  if !env.bodyDecodeOk then
    { events := [], httpError := some ⟨.badRequestBody, "Invalid request format"⟩ }
  else if req.UploadType = "csv" then csvBranch req env
  else if req.UploadType = "url" then urlBranch req env
  else if req.UploadType = "file" then fileBranch req env
  else if req.UploadType = "urlImport" then urlImportBranch req env
  else { events := [], httpError := none }

/-! ## Export data model (`ExportModel`) -/

/-- The scalar identity of a model: display name, content version
(`model.Model.Version` in Go) and schema-definition version
(`model.Version`). -/
structure ModelCore where
  Name : String
  modelVersion : String
  Version : String
deriving DecidableEq, Repr

mutual

/-- `model.ModelDefinition`: identity plus the optionally inlined component
and relationship lists (Go `interface{}` fields, `nil` meaning "not
requested"). -/
inductive ModelDefinition : Type where
  | mk (core : ModelCore)
       (Components : Option (List ComponentDefinition))
       (Relationships : Option (List RelationshipDefinition)) : ModelDefinition

/-- `component.ComponentDefinition`: a display name, an opaque schema blob
and the back-reference to the owning model. -/
inductive ComponentDefinition : Type where
  | mk (DisplayName schema : String) (Model : ModelDefinition) : ComponentDefinition

/-- `relationship.RelationshipDefinition`: a kind and the back-reference to
the owning model. -/
inductive RelationshipDefinition : Type where
  | mk (Kind : String) (Model : ModelDefinition) : RelationshipDefinition

end

def ModelDefinition.core : ModelDefinition → ModelCore
  | .mk c _ _ => c

def ModelDefinition.Components : ModelDefinition → Option (List ComponentDefinition)
  | .mk _ cs _ => cs

def ModelDefinition.Relationships : ModelDefinition → Option (List RelationshipDefinition)
  | .mk _ _ rs => rs

def ModelDefinition.Name (m : ModelDefinition) : String := m.core.Name

def ModelDefinition.modelVersion (m : ModelDefinition) : String := m.core.modelVersion

def ModelDefinition.Version (m : ModelDefinition) : String := m.core.Version

/-- Replace the component/relationship attachments of a model (used for the
`model.Components = nil` / `model.Relationships = nil` assignments). -/
def ModelDefinition.withRefs (m : ModelDefinition)
    (cs : Option (List ComponentDefinition)) (rs : Option (List RelationshipDefinition)) :
    ModelDefinition :=
  .mk m.core cs rs

def ComponentDefinition.Model : ComponentDefinition → ModelDefinition
  | .mk _ _ m => m

/-- The `comp.Model = *model` assignment. -/
def ComponentDefinition.withModel : ComponentDefinition → ModelDefinition → ComponentDefinition
  | .mk d s _, m => .mk d s m

def RelationshipDefinition.Model : RelationshipDefinition → ModelDefinition
  | .mk _ m => m

/-- The `rel.Model = *model` assignment. -/
def RelationshipDefinition.withModel : RelationshipDefinition → ModelDefinition → RelationshipDefinition
  | .mk k _, m => .mk k m

/-- A registry entity as returned by `GetEntities`; the export handler
asserts the first one to `*ModelDefinition` without a type check. -/
inductive Entity where
  | model (m : ModelDefinition)
  | component (c : ComponentDefinition)
  | relationship (r : RelationshipDefinition)

/-- `regv1beta1.ModelFilter` as the export handler builds it. -/
structure ModelFilter where
  Id : String
  Name : String
  Components : Bool
  Relationships : Bool
  Greedy : Bool
  Version : String
deriving DecidableEq, Repr

/-- The export request's query parameters; Go `URL.Query().Get` yields `""`
for an absent parameter. -/
structure ExportQuery where
  id : String
  name : String
  version : String
  output_format : String
  file_type : String
  components : String
  relationships : String
deriving DecidableEq, Repr

/-- Oracle environment for one export request: the registry lookup, the SVG
rewriting transforms (their errors are only logged), and the success and
byte results of the filesystem / packaging collaborators. -/
structure ExportEnv where
  /-- `h.registryManager.GetEntities(modelFilter)`; `.error` is a registry
  failure, `.ok` the entity list. -/
  getEntities : ModelFilter → Except String (List Entity)
  /-- `model.ReplaceSVGData("../../")` as a transform of the model record. -/
  replaceSVGModel : ModelDefinition → ModelDefinition
  /-- `comp.ReplaceSVGData("../../")` as a transform of a component. -/
  replaceSVGComp : ComponentDefinition → ComponentDefinition
  /-- `os.TempDir()`. -/
  tempDir : String
  /-- Did the three `os.MkdirAll` calls succeed? -/
  mkdirOk : Bool
  /-- Did `model.WriteModelDefinition` succeed? -/
  writeModelOk : Bool
  /-- Did `meshkitOci.BuildImage(modelDir)` succeed? -/
  buildImageOk : Bool
  /-- Did `meshkitOci.SaveOCIArtifact` succeed? -/
  saveOCIOk : Bool
  /-- Bytes read back from the saved OCI tar (`os.ReadFile`; its error is
  discarded, a failed read yields empty bytes). -/
  ociTarBytes : String
  /-- Did `meshkitutils.Compress(modelDir, ...)` succeed? -/
  compressOk : Bool
  /-- Did `os.WriteFile` of the gzip tarball succeed? -/
  gzWriteOk : Bool
  /-- Bytes read back from the written `model.tar.gz`. -/
  gzBytes : String

/-- The headers, body and write trace of a completed export. -/
structure ExportResponse where
  contentType : String
  contentDisposition : String
  contentLength : Nat
  body : String
  writtenModelPath : String
  writtenModel : ModelDefinition
  writtenComponents : List ComponentDefinition
  writtenRelationships : List RelationshipDefinition

/-- Terminal outcome of an export request. -/
inductive ExportOutcome where
  | panicked
  | httpError (status : Nat) (msg : String)
  | notFound (body : String)
  | success (resp : ExportResponse)

/-- The `ErrGetMeshModels` wrapper message (handlers-package error helper
outside `src/`; only its status class matters to the claims). -/
def ErrGetMeshModels (e : String) : String := "ErrGetMeshModels: " ++ e

/-- A boolean query parameter as the export handler reads it:
`strconv.ParseBool`, any parse error (absent or malformed value) replaced by
`true`. -/
def parseBoolDefaultTrue (s : String) : Bool := (goParseBool s).getD true

/-- The `regv1beta1.ModelFilter` literal of `ExportModel`. -/
def mkModelFilter (q : ExportQuery) : ModelFilter :=
  { Id := q.id
    Name := q.name
    Components := parseBoolDefaultTrue q.components
    Relationships := parseBoolDefaultTrue q.relationships
    Greedy := true
    Version := q.version }

/-- The 404 message assembled when no entity matches the filter. -/
def notFoundMessage (id name version : String) : String :=
  "model with "
    ++ (if id ≠ "" then "id " ++ id ++ " " else "")
    ++ (if name ≠ "" then "name " ++ name ++ " " else "")
    ++ (if version ≠ "" then "version " ++ version ++ " " else "")
    ++ "has not been found"

/-- Export of the first returned entity (`e[0]`): the unchecked
`.(*_model.ModelDefinition)` assertion panics on any other entity kind;
otherwise the canonical package layout is materialized and packaged per
`file_type`.  `q` is the already-resolved query (defaults applied). -/
def exportEntity (q : ExportQuery) (env : ExportEnv) (ent : Entity) : ExportOutcome :=
  match ent with
  | .component _ => .panicked
  | .relationship _ => .panicked
  | .model m0 =>
    -- model.ReplaceSVGData("../../"); its error is only logged
    let m1 := env.replaceSVGModel m0
    let modelDir := env.tempDir ++ "/" ++ m1.Name
    let versionDir := modelDir ++ "/" ++ m1.modelVersion ++ "/" ++ m1.Version
    if !env.mkdirOk then .httpError 500 "Error creating temp directory"
    else
    -- defer os.RemoveAll(modelDir)
    let components := m1.Components.getD []
    let relationships := m1.Relationships.getD []
    -- model.Relationships = nil; model.Components = nil
    let stripped := m1.withRefs none none
    if !env.writeModelOk then .httpError 500 "error writing model definition"
    else
    let writtenComps := components.map fun c => (env.replaceSVGComp c).withModel stripped
    let writtenRels := relationships.map fun r => r.withModel stripped
    if q.file_type = "oci" then
      if !env.buildImageOk then .httpError 500 "error building OCI image"
      else if !env.saveOCIOk then .httpError 500 "error saving OCI artifact"
      else
        .success
          { contentType := "application/x-tar"
            contentDisposition := "attachment; filename=\"" ++ m1.Name ++ ".tar\""
            contentLength := env.ociTarBytes.length
            body := env.ociTarBytes
            writtenModelPath := versionDir ++ "/model." ++ q.output_format
            writtenModel := stripped
            writtenComponents := writtenComps
            writtenRelationships := writtenRels }
    else
      if !env.compressOk then .httpError 500 "error compressing directory"
      else if !env.gzWriteOk then .httpError 500 "error writing tar.gz"
      else
        .success
          { contentType := "application/gzip"
            contentDisposition := "attachment; filename=\"" ++ m1.Name ++ ".tar.gz\""
            contentLength := env.gzBytes.length
            body := env.gzBytes
            writtenModelPath := versionDir ++ "/model." ++ q.output_format
            writtenModel := stripped
            writtenComponents := writtenComps
            writtenRelationships := writtenRels }

/-- Export against an already-resolved query: registry lookup, the 404 path
on an empty result (`fmt.Fprintln` appends a newline to the message), the
500 path on a registry error, otherwise export of the first entity. -/
def exportResolved (q : ExportQuery) (env : ExportEnv) : ExportOutcome :=
  match env.getEntities (mkModelFilter q) with
  | .error e => .httpError 500 (ErrGetMeshModels e)
  | .ok [] => .notFound (notFoundMessage q.id q.name q.version ++ "\n")
  | .ok (ent :: _) => exportEntity q env ent

/-- Defaulting of the export query: an empty `file_type` becomes `"oci"`,
an empty `output_format` becomes `"json"`. -/
def resolveExportQuery (q : ExportQuery) : ExportQuery :=
  { q with
    file_type := if q.file_type = "" then "oci" else q.file_type
    output_format := if q.output_format = "" then "json" else q.output_format }

/-- The `ExportModel` handler. -/
def ExportModel (q : ExportQuery) (env : ExportEnv) : ExportOutcome :=
  exportResolved (resolveExportQuery q) env

/-! ## Concrete instances used to evaluate the handlers -/

/-- A substring-containment predicate on strings (witnessed on character
data). -/
def strContains (t s : String) : Prop := List.IsInfix s.data t.data

/-- A well-formed CSV data-URL: the marker followed by a valid base64
payload. -/
def goodCsvURL : String := csvDataURLMarker ++ "QUJD"

/-- Sample inline model metadata with a mixed-case model name. -/
def sampleMeta : UrlModelMeta :=
  { Model := "MiXedCase"
    ModelDisplayName := "Mixed Case"
    PrimaryColor := ""
    SecondaryColor := ""
    Category := ""
    Registrant := "github"
    Shape := ""
    SubCategory := ""
    SvgColor := ""
    SvgWhite := ""
    SvgComplete := ""
    annotFlag := false
    publishFlag := true }

/-- A sample well-formed import body. -/
def sampleBody : ImportBody :=
  { ModelCsv := goodCsvURL
    ComponentCsv := goodCsvURL
    RelationshipCSV := goodCsvURL
    Model := sampleMeta
    Url := "https://layer5.io/archive"
    ModelFile := "QUJD"
    FileName := "m.json" }

/-- Sample metadata defaults. -/
def sampleDefaults : ModelMetaDefaults :=
  { modelDisplayName := "d", primaryColor := "d", secondaryColor := "d", category := "d"
    registrant := "d", shape := "d", subCategory := "d", svgColor := "d"
    svgWhite := "d", svgComplete := "d" }

/-- A sample environment in which every external step succeeds. -/
def okImportEnv : ImportEnv :=
  { bodyDecodeOk := true
    setLoggerOk := true
    homeDir := "/home/u"
    registryLocation := ".meshery/models"
    registryLocExists := true
    modelTmpName := "mtmp"
    compTmpName := "ctmp"
    relTmpName := "rtmp"
    createModelTmpOk := true
    createCompTmpOk := true
    createRelTmpOk := true
    writeModelTmpOk := true
    writeCompTmpOk := true
    writeRelTmpOk := true
    tempDirName := "tdir"
    mkTempDirOk := true
    generationOk := true
    modelDirPaths := ["tdir/modela"]
    copyOk := true
    defaults := sampleDefaults
    generateModels := fun _ _ _ => some ("pkg", "v2.3.4")
    scaffoldRoot := "root"
    mkVersionedDirOk := true
    writeModelDefOk := true
    generateComponentsResult := some 2
    tempPathFor := fun n => "/tmp/" ++ n
    createFileTmpOk := true
    download := fun _ => some "ARCHIVEBYTES"
    isOCIArtifact := fun _ => false
    sniffFileType := fun _ => ".tar"
    createUrlTmpOk := true }

/-- A csv import request with `Register` set. -/
def csvRegisterReq : ImportRequest :=
  { UploadType := "csv", Body := sampleBody, Register := true }

/-- A csv import request with `Register` unset. -/
def csvNoRegisterReq : ImportRequest :=
  { UploadType := "csv", Body := sampleBody, Register := false }

/-- A csv import request whose component sheet is not a csv data-URL. -/
def csvBadComponentReq : ImportRequest :=
  { UploadType := "csv"
    Body := { sampleBody with ComponentCsv := "bogus" }
    Register := true }

/-- A url-scaffold import request with a mixed-case model name. -/
def urlMixedCaseReq : ImportRequest :=
  { UploadType := "url", Body := sampleBody, Register := true }

/-- A sample component whose back-reference starts out empty. -/
def sampleComponent : ComponentDefinition :=
  .mk "Pod" "schemablob" (.mk ⟨"", "", ""⟩ none none)

/-- A sample relationship whose back-reference starts out empty. -/
def sampleRelationship : RelationshipDefinition :=
  .mk "edge" (.mk ⟨"", "", ""⟩ none none)

/-- A sample registered model with one component and one relationship
inlined. -/
def sampleModel : ModelDefinition :=
  .mk ⟨"mymodel", "v1.0.0", "1.0.0"⟩ (some [sampleComponent]) (some [sampleRelationship])

/-- A sample export environment whose registry returns `sampleModel` and in
which every external step succeeds. -/
def okExportEnv : ExportEnv :=
  { getEntities := fun _ => .ok [.model sampleModel]
    replaceSVGModel := fun m => m
    replaceSVGComp := fun c => c
    tempDir := "/tmp"
    mkdirOk := true
    writeModelOk := true
    buildImageOk := true
    saveOCIOk := true
    ociTarBytes := "OCITARBYTES"
    compressOk := true
    gzWriteOk := true
    gzBytes := "GZBYTES" }

/-- The export environment whose registry lookup matches nothing. -/
def emptyExportEnv : ExportEnv :=
  { okExportEnv with getEntities := fun _ => .ok [] }

/-- The export environment whose registry lookup fails. -/
def errExportEnv : ExportEnv :=
  { okExportEnv with getEntities := fun _ => .error "registry down" }

/-- The export environment whose registry returns a component first. -/
def componentFirstExportEnv : ExportEnv :=
  { okExportEnv with getEntities := fun _ => .ok [.component sampleComponent] }

/-- A sample export query naming id, name and version, requesting OCI
packaging explicitly. -/
def ociQuery : ExportQuery :=
  { id := "abc-123"
    name := "mymodel"
    version := "v1.0.0"
    output_format := ""
    file_type := "oci"
    components := ""
    relationships := "" }

/-! ## Helper lemmas on the import branches -/

theorem residualTemps_csvBranch (req : ImportRequest) (env : ImportEnv) :
    ∀ p ∈ residualTemps (csvBranch req env),
      p = env.modelTmpName ∨ p = env.compTmpName ∨ p = env.relTmpName := by
  intro p hp
  simp only [csvBranch] at hp
  rcases h1 : fetchBase64DataFromDataURL req.Body.ModelCsv with k1 | d1
  · simp [h1, residualTemps, createdTemps, removedTemps] at hp
  · simp only [h1] at hp
    cases hb1 : env.createModelTmpOk
    · simp [hb1, residualTemps, createdTemps, removedTemps] at hp
    · simp only [hb1, Bool.not_true] at hp
      rw [if_neg (by simp)] at hp
      cases hb2 : env.writeModelTmpOk
      · simp [hb2, residualTemps, createdTemps, removedTemps] at hp
        try tauto
      · simp only [hb2, Bool.not_true] at hp
        rw [if_neg (by simp)] at hp
        rcases h2 : fetchBase64DataFromDataURL req.Body.ComponentCsv with k2 | d2
        · simp [h2, residualTemps, createdTemps, removedTemps] at hp
          try tauto
        · simp only [h2] at hp
          cases hb3 : env.createCompTmpOk
          · simp [hb3, residualTemps, createdTemps, removedTemps] at hp
            try tauto
          · simp only [hb3, Bool.not_true] at hp
            rw [if_neg (by simp)] at hp
            cases hb4 : env.writeCompTmpOk
            · simp [hb4, residualTemps, createdTemps, removedTemps] at hp
              try tauto
            · simp only [hb4, Bool.not_true] at hp
              rw [if_neg (by simp)] at hp
              rcases h3 : fetchBase64DataFromDataURL req.Body.RelationshipCSV with k3 | d3
              · simp [h3, residualTemps, createdTemps, removedTemps] at hp
                try tauto
              · simp only [h3] at hp
                cases hb5 : env.createRelTmpOk
                · simp [hb5, residualTemps, createdTemps, removedTemps] at hp
                  try tauto
                · simp only [hb5, Bool.not_true] at hp
                  rw [if_neg (by simp)] at hp
                  cases hb6 : env.writeRelTmpOk
                  · simp [hb6, residualTemps, createdTemps, removedTemps] at hp
                    try tauto
                  · simp only [hb6, Bool.not_true] at hp
                    rw [if_neg (by simp)] at hp
                    cases hbE : env.registryLocExists <;>
                      cases hb7 : env.mkTempDirOk <;>
                        cases hb8 : env.generationOk <;>
                          cases hR : req.Register <;>
                            cases hb9 : env.copyOk <;>
                              simp [hbE, hb7, hb8, hR, hb9, residualTemps, createdTemps,
                                removedTemps] at hp <;>
                                try tauto

theorem residualTemps_urlBranch (req : ImportRequest) (env : ImportEnv) :
    residualTemps (urlBranch req env) = [] := by
  simp only [urlBranch]
  set m1 := setDefaultValues env.defaults (modelCSVOfMeta req.Body.Model) with hm1
  rcases hg : env.generateModels m1.Registrant req.Body.Url (strToLower m1.Model) with _ | pv
  · simp [hg, residualTemps, createdTemps, removedTemps]
  · simp only [hg]
    cases hb1 : env.mkVersionedDirOk
    · simp [hb1, residualTemps, createdTemps, removedTemps]
    · simp only [hb1, Bool.not_true]
      rw [if_neg (by simp)]
      cases hb2 : env.writeModelDefOk
      · simp [hb2, residualTemps, createdTemps, removedTemps]
      · simp only [hb2, Bool.not_true]
        rw [if_neg (by simp)]
        rcases hgc : env.generateComponentsResult with _ | n <;>
          cases hR : req.Register <;>
            simp [hgc, hR, residualTemps, createdTemps, removedTemps]

theorem residualTemps_fileBranch (req : ImportRequest) (env : ImportEnv) :
    residualTemps (fileBranch req env) = [] := by
  simp only [fileBranch]
  rcases hd : base64StdDecode (stripOuterQuotes (jsonMarshalString req.Body.ModelFile)) with _ | b
  · simp [residualTemps, createdTemps, removedTemps]
  · simp only [hd]
    cases hc : env.createFileTmpOk <;>
      cases hR : req.Register <;>
        simp [hc, hR, residualTemps, createdTemps, removedTemps]

theorem residualTemps_urlImportBranch (req : ImportRequest) (env : ImportEnv) :
    residualTemps (urlImportBranch req env) = [] := by
  simp only [urlImportBranch]
  rcases hd : env.download req.Body.Url with _ | b
  · simp [residualTemps, createdTemps, removedTemps]
  · simp only [hd]
    cases hc : env.createUrlTmpOk <;>
      cases hR : req.Register <;>
        simp [hc, hR, residualTemps, createdTemps, removedTemps]

theorem registeredDirs_csvBranch (req : ImportRequest) (env : ImportEnv)
    (hR : req.Register = false) : registeredDirs (csvBranch req env) = [] := by
  simp only [csvBranch]
  rcases h1 : fetchBase64DataFromDataURL req.Body.ModelCsv with k1 | d1
  · simp [registeredDirs]
  · simp only [h1]
    cases hb1 : env.createModelTmpOk
    · simp [hb1, registeredDirs]
    · simp only [hb1, Bool.not_true]
      rw [if_neg (by simp)]
      cases hb2 : env.writeModelTmpOk
      · simp [hb2, registeredDirs]
      · simp only [hb2, Bool.not_true]
        rw [if_neg (by simp)]
        rcases h2 : fetchBase64DataFromDataURL req.Body.ComponentCsv with k2 | d2
        · simp [registeredDirs]
        · simp only [h2]
          cases hb3 : env.createCompTmpOk
          · simp [hb3, registeredDirs]
          · simp only [hb3, Bool.not_true]
            rw [if_neg (by simp)]
            cases hb4 : env.writeCompTmpOk
            · simp [hb4, registeredDirs]
            · simp only [hb4, Bool.not_true]
              rw [if_neg (by simp)]
              rcases h3 : fetchBase64DataFromDataURL req.Body.RelationshipCSV with k3 | d3
              · simp [registeredDirs]
              · simp only [h3]
                cases hb5 : env.createRelTmpOk
                · simp [hb5, registeredDirs]
                · simp only [hb5, Bool.not_true]
                  rw [if_neg (by simp)]
                  cases hb6 : env.writeRelTmpOk
                  · simp [hb6, registeredDirs]
                  · simp only [hb6, Bool.not_true]
                    rw [if_neg (by simp)]
                    cases hbE : env.registryLocExists <;>
                      cases hb7 : env.mkTempDirOk <;>
                        cases hb8 : env.generationOk <;>
                          simp [hbE, hb7, hb8, hR, registeredDirs]

theorem registeredDirs_urlBranch (req : ImportRequest) (env : ImportEnv)
    (hR : req.Register = false) : registeredDirs (urlBranch req env) = [] := by
  simp only [urlBranch]
  set m1 := setDefaultValues env.defaults (modelCSVOfMeta req.Body.Model) with hm1
  rcases hg : env.generateModels m1.Registrant req.Body.Url (strToLower m1.Model) with _ | pv
  · simp [registeredDirs]
  · simp only [hg]
    cases hb1 : env.mkVersionedDirOk
    · simp [hb1, registeredDirs]
    · simp only [hb1, Bool.not_true]
      rw [if_neg (by simp)]
      cases hb2 : env.writeModelDefOk
      · simp [hb2, registeredDirs]
      · simp only [hb2, Bool.not_true]
        rw [if_neg (by simp)]
        rcases hgc : env.generateComponentsResult with _ | n <;>
          simp [hgc, hR, registeredDirs]

theorem registeredDirs_fileBranch (req : ImportRequest) (env : ImportEnv)
    (hR : req.Register = false) : registeredDirs (fileBranch req env) = [] := by
  simp only [fileBranch]
  rcases hd : base64StdDecode (stripOuterQuotes (jsonMarshalString req.Body.ModelFile)) with _ | b
  · simp [registeredDirs]
  · simp only [hd]
    cases hc : env.createFileTmpOk <;> simp [hc, hR, registeredDirs]

theorem registeredDirs_urlImportBranch (req : ImportRequest) (env : ImportEnv)
    (hR : req.Register = false) : registeredDirs (urlImportBranch req env) = [] := by
  simp only [urlImportBranch]
  rcases hd : env.download req.Body.Url with _ | b
  · simp [registeredDirs]
  · simp only [hd]
    cases hc : env.createUrlTmpOk <;> simp [hc, hR, registeredDirs]

/-! ## Claim C1 -/

/-- C1, as stated, is false: on a well-formed csv import in which every
external step succeeds, the handler returns with no error and the three CSV
temp files are still on the filesystem — they are `Close`d via `defer` but
never removed. -/
theorem C1_counterexample :
    (RegisterMeshmodels csvRegisterReq okImportEnv).httpError = none ∧
    residualTemps (RegisterMeshmodels csvRegisterReq okImportEnv) = ["mtmp", "ctmp", "rtmp"] := by
  decide

/-- C1 (amended): after `RegisterMeshmodels` returns, every temporary file
or directory still on the filesystem is one of the three CSV temp files;
the scratch generation directory, the uploaded-file temp file and the
downloaded-archive temp file are removed on every exit path. -/
theorem C1_temp_cleanup_amended (req : ImportRequest) (env : ImportEnv) :
    ∀ p ∈ residualTemps (RegisterMeshmodels req env),
      p = env.modelTmpName ∨ p = env.compTmpName ∨ p = env.relTmpName := by
  intro p hp
  unfold RegisterMeshmodels at hp
  repeat' split at hp
  · simp [residualTemps, createdTemps, removedTemps] at hp
  · exact residualTemps_csvBranch req env p hp
  · rw [residualTemps_urlBranch req env] at hp; exact absurd hp (List.not_mem_nil p)
  · rw [residualTemps_fileBranch req env] at hp; exact absurd hp (List.not_mem_nil p)
  · rw [residualTemps_urlImportBranch req env] at hp; exact absurd hp (List.not_mem_nil p)
  · simp [residualTemps, createdTemps, removedTemps] at hp

/-- Witness for C1 (amended) at a concrete run: the model CSV temp file is
residual, and the amended theorem classifies it. -/
theorem C1_witness :
    "mtmp" ∈ residualTemps (RegisterMeshmodels csvRegisterReq okImportEnv) ∧
      ("mtmp" = okImportEnv.modelTmpName ∨ "mtmp" = okImportEnv.compTmpName ∨
        "mtmp" = okImportEnv.relTmpName) :=
  ⟨by decide, C1_temp_cleanup_amended csvRegisterReq okImportEnv "mtmp" (by decide)⟩

/-! ## Claim C2 -/

/-- C2, as stated, is false: on a csv import in which generation succeeds
but `Register` is false, the handler returns early (no error) and the
scratch directory is never copied into the registry-local cache — the copy
is not independent of the `Register` flag. -/
theorem C2_counterexample :
    (RegisterMeshmodels csvNoRegisterReq okImportEnv).httpError = none ∧
    cacheCopies (RegisterMeshmodels csvNoRegisterReq okImportEnv) = [] := by
  decide

/-- C2 (amended): for a csv import in which generation succeeds, the copy of
the scratch directory into the registry-local cache location happens only
when `Register` is true; in that case it happens (creating the cache
location first when absent) and precedes the deferred removal of the
scratch directory. -/
theorem C2_cache_copy_amended (req : ImportRequest) (env : ImportEnv)
    (d1 d2 d3 : String)
    (hU : req.UploadType = "csv") (hD : env.bodyDecodeOk = true)
    (hf1 : fetchBase64DataFromDataURL req.Body.ModelCsv = .ok d1)
    (hf2 : fetchBase64DataFromDataURL req.Body.ComponentCsv = .ok d2)
    (hf3 : fetchBase64DataFromDataURL req.Body.RelationshipCSV = .ok d3)
    (hb1 : env.createModelTmpOk = true) (hb2 : env.writeModelTmpOk = true)
    (hb3 : env.createCompTmpOk = true) (hb4 : env.writeCompTmpOk = true)
    (hb5 : env.createRelTmpOk = true) (hb6 : env.writeRelTmpOk = true)
    (hb7 : env.mkTempDirOk = true) (hb8 : env.generationOk = true)
    (hR : req.Register = true) (hb9 : env.copyOk = true) :
    (∃ l1, (RegisterMeshmodels req env).events =
      l1 ++ [Ev.copyCache env.tempDirName (modelLocationOf env),
             Ev.fsRemove env.tempDirName]) ∧
    (env.registryLocExists = false →
      Ev.ensureCacheDir (modelLocationOf env) ∈ (RegisterMeshmodels req env).events) := by
  constructor
  · refine ⟨[Ev.fsCreate env.modelTmpName, Ev.fsCreate env.compTmpName,
      Ev.fsCreate env.relTmpName] ++
      (if env.registryLocExists then [] else [Ev.ensureCacheDir (modelLocationOf env)]) ++
      [Ev.fsCreate env.tempDirName] ++ env.modelDirPaths.map Ev.registerDir, ?_⟩
    simp [RegisterMeshmodels, csvBranch, hU, hD, hf1, hf2, hf3, hb1, hb2, hb3, hb4, hb5,
      hb6, hb7, hb8, hb9, hR]
  · intro hE
    simp [RegisterMeshmodels, csvBranch, hU, hD, hf1, hf2, hf3, hb1, hb2, hb3, hb4, hb5,
      hb6, hb7, hb8, hb9, hR, hE]

/-- Witness for C2 (amended) at a concrete run with `Register = true`. -/
theorem C2_witness :
    (∃ l1, (RegisterMeshmodels csvRegisterReq okImportEnv).events =
      l1 ++ [Ev.copyCache okImportEnv.tempDirName (modelLocationOf okImportEnv),
             Ev.fsRemove okImportEnv.tempDirName]) ∧
    (okImportEnv.registryLocExists = false →
      Ev.ensureCacheDir (modelLocationOf okImportEnv) ∈
        (RegisterMeshmodels csvRegisterReq okImportEnv).events) :=
  C2_cache_copy_amended csvRegisterReq okImportEnv "QUJD" "QUJD" "QUJD"
    rfl rfl rfl rfl rfl rfl rfl rfl rfl rfl rfl rfl rfl rfl rfl

/-! ## Claim C3 -/

/-- A data-URL without the csv marker makes the fetch helper fail with the
file-type error. -/
theorem fetch_markerless (s : String) (h : strIsPrefixOf csvDataURLMarker s = false) :
    fetchBase64DataFromDataURL s = .error .fileType := by
  simp [fetchBase64DataFromDataURL, h]

/-- C3, as stated, is false: a csv import whose component sheet lacks the
csv data-URL marker fails with the file-type error, but only after the
model CSV temp file has already been created (and left behind). -/
theorem C3_counterexample :
    (RegisterMeshmodels csvBadComponentReq okImportEnv).httpError =
      some ⟨.fileType, "Error fetching or decoding Component CSV"⟩ ∧
    createdTemps (RegisterMeshmodels csvBadComponentReq okImportEnv) = ["mtmp"] := by
  decide

/-- C3 (amended): each sheet's data-URL is validated immediately before that
sheet's own temp file is created: a marker-less model sheet fails with a
file-type error before any temp file exists; a marker-less component sheet
fails after the model temp file was created; a marker-less relationship
sheet fails after the model and component temp files were created. -/
theorem C3_prefix_check_amended (req : ImportRequest) (env : ImportEnv)
    (hU : req.UploadType = "csv") (hD : env.bodyDecodeOk = true) :
    (strIsPrefixOf csvDataURLMarker req.Body.ModelCsv = false →
      (RegisterMeshmodels req env).httpError =
        some ⟨.fileType, "Error fetching or decoding Model CSV"⟩ ∧
      createdTemps (RegisterMeshmodels req env) = []) ∧
    (∀ d1, fetchBase64DataFromDataURL req.Body.ModelCsv = .ok d1 →
      env.createModelTmpOk = true → env.writeModelTmpOk = true →
      strIsPrefixOf csvDataURLMarker req.Body.ComponentCsv = false →
      (RegisterMeshmodels req env).httpError =
        some ⟨.fileType, "Error fetching or decoding Component CSV"⟩ ∧
      createdTemps (RegisterMeshmodels req env) = [env.modelTmpName]) ∧
    (∀ d1 d2, fetchBase64DataFromDataURL req.Body.ModelCsv = .ok d1 →
      fetchBase64DataFromDataURL req.Body.ComponentCsv = .ok d2 →
      env.createModelTmpOk = true → env.writeModelTmpOk = true →
      env.createCompTmpOk = true → env.writeCompTmpOk = true →
      strIsPrefixOf csvDataURLMarker req.Body.RelationshipCSV = false →
      (RegisterMeshmodels req env).httpError =
        some ⟨.fileType, "Error fetching or decoding Model CSV"⟩ ∧
      createdTemps (RegisterMeshmodels req env) =
        [env.modelTmpName, env.compTmpName]) := by
  refine ⟨?_, ?_, ?_⟩
  · intro h
    simp [RegisterMeshmodels, csvBranch, hU, hD, fetch_markerless _ h,
      createdTemps]
  · intro d1 hf1 hb1 hb2 h
    simp [RegisterMeshmodels, csvBranch, hU, hD, hf1, hb1, hb2, fetch_markerless _ h,
      createdTemps]
  · intro d1 d2 hf1 hf2 hb1 hb2 hb3 hb4 h
    simp [RegisterMeshmodels, csvBranch, hU, hD, hf1, hf2, hb1, hb2, hb3, hb4,
      fetch_markerless _ h, createdTemps]

/-- Witness for C3 (amended): the component-sheet conjunct at a concrete
run. -/
theorem C3_witness :
    (RegisterMeshmodels csvBadComponentReq okImportEnv).httpError =
      some ⟨.fileType, "Error fetching or decoding Component CSV"⟩ ∧
    createdTemps (RegisterMeshmodels csvBadComponentReq okImportEnv) =
      [okImportEnv.modelTmpName] :=
  (C3_prefix_check_amended csvBadComponentReq okImportEnv rfl rfl).2.1
    "QUJD" rfl rfl rfl rfl

/-! ## Claim C4 -/

/-- C4, as stated, is false: a well-formed csv import with `Register` false
performs no registration, but the three CSV temp files remain on the
filesystem after the handler returns. -/
theorem C4_counterexample :
    registeredDirs (RegisterMeshmodels csvNoRegisterReq okImportEnv) = [] ∧
    residualTemps (RegisterMeshmodels csvNoRegisterReq okImportEnv) = ["mtmp", "ctmp", "rtmp"] := by
  decide

/-- C4 (amended): with `Register` false the handler performs zero registry
registrations for every upload type, and leaves zero residual temporary
files for the `url`, `file` and `urlImport` types; the `csv` type leaves
behind at most the three CSV temp files. -/
theorem C4_no_register_amended (req : ImportRequest) (env : ImportEnv)
    (hR : req.Register = false) :
    registeredDirs (RegisterMeshmodels req env) = [] ∧
    (∀ p ∈ residualTemps (RegisterMeshmodels req env),
      p = env.modelTmpName ∨ p = env.compTmpName ∨ p = env.relTmpName) ∧
    (req.UploadType ≠ "csv" → residualTemps (RegisterMeshmodels req env) = []) := by
  refine ⟨?_, ?_, ?_⟩
  · unfold RegisterMeshmodels
    repeat' split
    · simp [registeredDirs]
    · exact registeredDirs_csvBranch req env hR
    · exact registeredDirs_urlBranch req env hR
    · exact registeredDirs_fileBranch req env hR
    · exact registeredDirs_urlImportBranch req env hR
    · simp [registeredDirs]
  · intro p hp
    unfold RegisterMeshmodels at hp
    repeat' split at hp
    · simp [residualTemps, createdTemps, removedTemps] at hp
    · exact residualTemps_csvBranch req env p hp
    · rw [residualTemps_urlBranch req env] at hp; exact absurd hp (List.not_mem_nil p)
    · rw [residualTemps_fileBranch req env] at hp; exact absurd hp (List.not_mem_nil p)
    · rw [residualTemps_urlImportBranch req env] at hp; exact absurd hp (List.not_mem_nil p)
    · simp [residualTemps, createdTemps, removedTemps] at hp
  · intro hcsv
    unfold RegisterMeshmodels
    repeat' split
    all_goals first
      | exact residualTemps_urlBranch req env
      | exact residualTemps_fileBranch req env
      | exact residualTemps_urlImportBranch req env
      | exact absurd (by assumption) hcsv
      | simp [residualTemps, createdTemps, removedTemps]

/-- Witness for C4 (amended) at a concrete `url` import with `Register`
false. -/
theorem C4_witness :
    registeredDirs (RegisterMeshmodels { urlMixedCaseReq with Register := false } okImportEnv) = [] ∧
    (∀ p ∈ residualTemps (RegisterMeshmodels { urlMixedCaseReq with Register := false } okImportEnv),
      p = okImportEnv.modelTmpName ∨ p = okImportEnv.compTmpName ∨ p = okImportEnv.relTmpName) ∧
    ({ urlMixedCaseReq with Register := false }.UploadType ≠ "csv" →
      residualTemps (RegisterMeshmodels { urlMixedCaseReq with Register := false } okImportEnv) = []) :=
  C4_no_register_amended { urlMixedCaseReq with Register := false } okImportEnv rfl

/-! ## Helper lemmas on the export handler -/

theorem mkModelFilter_resolve (q : ExportQuery) :
    mkModelFilter (resolveExportQuery q) = mkModelFilter q := rfl

theorem exportModel_ok_cons (q : ExportQuery) (env : ExportEnv) (ent : Entity)
    (rest : List Entity)
    (hget : env.getEntities (mkModelFilter q) = .ok (ent :: rest)) :
    ExportModel q env = exportEntity (resolveExportQuery q) env ent := by
  simp [ExportModel, exportResolved, mkModelFilter_resolve, hget]

theorem compDef_Model_withModel (c : ComponentDefinition) (m : ModelDefinition) :
    (c.withModel m).Model = m := by
  cases c; rfl

theorem relDef_Model_withModel (r : RelationshipDefinition)
    (m : ModelDefinition) : (r.withModel m).Model = m := by
  cases r; rfl

theorem exportEntity_model_oci (q : ExportQuery) (env : ExportEnv) (m : ModelDefinition)
    (hft : q.file_type = "oci") (h1 : env.mkdirOk = true) (h2 : env.writeModelOk = true)
    (h3 : env.buildImageOk = true) (h4 : env.saveOCIOk = true) :
    exportEntity q env (.model m) = .success
      { contentType := "application/x-tar"
        contentDisposition := "attachment; filename=\"" ++ (env.replaceSVGModel m).Name ++ ".tar\""
        contentLength := env.ociTarBytes.length
        body := env.ociTarBytes
        writtenModelPath := env.tempDir ++ "/" ++ (env.replaceSVGModel m).Name ++ "/" ++
          (env.replaceSVGModel m).modelVersion ++ "/" ++ (env.replaceSVGModel m).Version ++
          "/model." ++ q.output_format
        writtenModel := (env.replaceSVGModel m).withRefs none none
        writtenComponents := ((env.replaceSVGModel m).Components.getD []).map
          (fun c => (env.replaceSVGComp c).withModel ((env.replaceSVGModel m).withRefs none none))
        writtenRelationships := ((env.replaceSVGModel m).Relationships.getD []).map
          (fun rl => rl.withModel ((env.replaceSVGModel m).withRefs none none)) } := by
  simp [exportEntity, hft, h1, h2, h3, h4]

theorem exportEntity_model_ne_panic (q : ExportQuery) (env : ExportEnv) (m : ModelDefinition) :
    exportEntity q env (.model m) ≠ .panicked := by
  simp only [exportEntity]
  repeat' split
  all_goals simp

theorem goParseBool_eq_some_false (s : String) :
    goParseBool s = some false ↔
      (s = "0" ∨ s = "f" ∨ s = "F" ∨ s = "FALSE" ∨ s = "false" ∨ s = "False") := by
  unfold goParseBool
  split
  · rename_i h
    rcases h with h | h | h | h | h | h <;> subst h <;> decide
  · split
    · rename_i h2
      exact iff_of_true rfl h2
    · rename_i h1 h2
      exact iff_of_false (by simp) h2

/-! ## Claim C5 -/

/-- C5 (confirmed): an export lookup that succeeds with zero entities yields
a 404 outcome whose body is the assembled not-found message — which
literally contains each supplied (non-empty) id, name and version — while a
registry error yields a 500 outcome instead. -/
theorem C5_not_found (q : ExportQuery) (env : ExportEnv) :
    (env.getEntities (mkModelFilter q) = .ok [] →
      ExportModel q env = .notFound (notFoundMessage q.id q.name q.version ++ "\n") ∧
      (q.id ≠ "" → strContains (notFoundMessage q.id q.name q.version ++ "\n") q.id) ∧
      (q.name ≠ "" → strContains (notFoundMessage q.id q.name q.version ++ "\n") q.name) ∧
      (q.version ≠ "" →
        strContains (notFoundMessage q.id q.name q.version ++ "\n") q.version)) ∧
    (∀ e, env.getEntities (mkModelFilter q) = .error e →
      ExportModel q env = .httpError 500 (ErrGetMeshModels e)) := by
  constructor
  · intro hget
    refine ⟨?_, ?_, ?_, ?_⟩
    · simp only [ExportModel, exportResolved, mkModelFilter_resolve, hget]
      try rfl
    · intro hid
      refine ⟨("model with " ++ "id ").data,
        ((" " ++ (if q.name ≠ "" then "name " ++ q.name ++ " " else "") ++
          (if q.version ≠ "" then "version " ++ q.version ++ " " else "") ++
          "has not been found") ++ "\n").data, ?_⟩
      simp [notFoundMessage, hid, String.data_append]
    · intro hname
      refine ⟨("model with " ++ (if q.id ≠ "" then "id " ++ q.id ++ " " else "") ++
        "name ").data,
        ((" " ++ (if q.version ≠ "" then "version " ++ q.version ++ " " else "") ++
          "has not been found") ++ "\n").data, ?_⟩
      simp [notFoundMessage, hname, String.data_append]
    · intro hver
      refine ⟨("model with " ++ (if q.id ≠ "" then "id " ++ q.id ++ " " else "") ++
        (if q.name ≠ "" then "name " ++ q.name ++ " " else "") ++ "version ").data,
        ((" " ++ "has not been found") ++ "\n").data, ?_⟩
      simp [notFoundMessage, hver, String.data_append]
  · intro e hget
    simp only [ExportModel, exportResolved, mkModelFilter_resolve, hget]
    try rfl

/-- Witness for C5: the empty-result and registry-error paths at concrete
inputs. -/
theorem C5_witness :
    ExportModel ociQuery emptyExportEnv =
      .notFound (notFoundMessage ociQuery.id ociQuery.name ociQuery.version ++ "\n") ∧
    strContains (notFoundMessage ociQuery.id ociQuery.name ociQuery.version ++ "\n")
      ociQuery.id ∧
    ExportModel ociQuery errExportEnv = .httpError 500 (ErrGetMeshModels "registry down") :=
  ⟨((C5_not_found ociQuery emptyExportEnv).1 rfl).1,
   ((C5_not_found ociQuery emptyExportEnv).1 rfl).2.1 (by decide),
   (C5_not_found ociQuery errExportEnv).2 "registry down" rfl⟩

/-! ## Claim C6 -/

/-- C6 (confirmed): an export request that omits `file_type` behaves exactly
like `file_type=oci`, and a successful oci export carries
`Content-Type: application/x-tar` and a `Content-Disposition` filename
`{model}.tar`. -/
theorem C6_oci_default (q : ExportQuery) (env : ExportEnv) :
    ExportModel { q with file_type := "" } env =
      ExportModel { q with file_type := "oci" } env ∧
    (∀ m rest, q.file_type = "oci" →
      env.getEntities (mkModelFilter q) = .ok (Entity.model m :: rest) →
      env.mkdirOk = true → env.writeModelOk = true →
      env.buildImageOk = true → env.saveOCIOk = true →
      ∃ r, ExportModel q env = .success r ∧
        r.contentType = "application/x-tar" ∧
        r.contentDisposition =
          "attachment; filename=\"" ++ (env.replaceSVGModel m).Name ++ ".tar\"") := by
  constructor
  · have h : resolveExportQuery { q with file_type := "" } =
        resolveExportQuery { q with file_type := "oci" } := by
      simp [resolveExportQuery]
    simp [ExportModel, h]
  · intro m rest hq hget h1 h2 h3 h4
    have hbridge := exportModel_ok_cons q env (.model m) rest hget
    have hq' : (resolveExportQuery q).file_type = "oci" := by
      simp [resolveExportQuery, hq]
    exact ⟨_, hbridge.trans (exportEntity_model_oci (resolveExportQuery q) env m hq' h1 h2 h3 h4),
      rfl, rfl⟩

/-- Witness for C6 at a concrete successful oci export. -/
theorem C6_witness :
    ExportModel { ociQuery with file_type := "" } okExportEnv =
      ExportModel { ociQuery with file_type := "oci" } okExportEnv ∧
    ∃ r, ExportModel ociQuery okExportEnv = .success r ∧
      r.contentType = "application/x-tar" ∧
      r.contentDisposition =
        "attachment; filename=\"" ++ (okExportEnv.replaceSVGModel sampleModel).Name ++ ".tar\"" :=
  ⟨(C6_oci_default ociQuery okExportEnv).1,
   (C6_oci_default ociQuery okExportEnv).2 sampleModel [] rfl rfl rfl rfl rfl rfl⟩

/-! ## Claim C7 -/

/-- C7 (confirmed): the `components` and `relationships` query parameters
resolve to `true` when absent (`""`) or malformed (unparseable), and the
filter flag is `false` exactly when the parameter is one of Go's six
well-formed false literals. -/
theorem C7_bool_params (q : ExportQuery) :
    ((q.components = "" ∨ goParseBool q.components = none) →
      (mkModelFilter q).Components = true) ∧
    ((mkModelFilter q).Components = false ↔
      q.components ∈ ["0", "f", "F", "FALSE", "false", "False"]) ∧
    ((q.relationships = "" ∨ goParseBool q.relationships = none) →
      (mkModelFilter q).Relationships = true) ∧
    ((mkModelFilter q).Relationships = false ↔
      q.relationships ∈ ["0", "f", "F", "FALSE", "false", "False"]) := by
  have hmemC : q.components ∈ (["0", "f", "F", "FALSE", "false", "False"] : List String) ↔
      goParseBool q.components = some false := by
    rw [goParseBool_eq_some_false]; simp
  have hmemR : q.relationships ∈ (["0", "f", "F", "FALSE", "false", "False"] : List String) ↔
      goParseBool q.relationships = some false := by
    rw [goParseBool_eq_some_false]; simp
  refine ⟨?_, ?_, ?_, ?_⟩
  · rintro (h | h)
    · show (goParseBool q.components).getD true = true
      rw [h]; rfl
    · show (goParseBool q.components).getD true = true
      rw [h]; rfl
  · rw [show (mkModelFilter q).Components = (goParseBool q.components).getD true from rfl, hmemC]
    rcases hg : goParseBool q.components with _ | b
    · simp
    · cases b <;> simp
  · rintro (h | h)
    · show (goParseBool q.relationships).getD true = true
      rw [h]; rfl
    · show (goParseBool q.relationships).getD true = true
      rw [h]; rfl
  · rw [show (mkModelFilter q).Relationships =
      (goParseBool q.relationships).getD true from rfl, hmemR]
    rcases hg : goParseBool q.relationships with _ | b
    · simp
    · cases b <;> simp

/-- An export query with a malformed `components` value and a well-formed
false `relationships` value. -/
def malformedBoolQuery : ExportQuery :=
  { ociQuery with components := "maybe", relationships := "False" }

/-- Witness for C7: a malformed value defaults to true, a well-formed false
turns the flag off. -/
theorem C7_witness :
    (mkModelFilter malformedBoolQuery).Components = true ∧
    ((mkModelFilter malformedBoolQuery).Relationships = false ↔
      malformedBoolQuery.relationships ∈ ["0", "f", "F", "FALSE", "false", "False"]) :=
  ⟨(C7_bool_params malformedBoolQuery).1 (Or.inr (by decide)),
   (C7_bool_params malformedBoolQuery).2.2.2⟩

/-! ## Claim C8 -/

/-- C8 (confirmed): the url-scaffold import lower-cases the model name
before the versioned package path is computed and before the model
definition is written: the written definition's path and identity, and the
registered directory, all use the lower-cased name even for a mixed-case
request. -/
theorem C8_lowercase_model_name (req : ImportRequest) (env : ImportEnv)
    (pkg version : String)
    (hU : req.UploadType = "url") (hD : env.bodyDecodeOk = true)
    (hg : env.generateModels
      (setDefaultValues env.defaults (modelCSVOfMeta req.Body.Model)).Registrant
      req.Body.Url
      (strToLower (setDefaultValues env.defaults (modelCSVOfMeta req.Body.Model)).Model) =
      some (pkg, version))
    (hb1 : env.mkVersionedDirOk = true) (hb2 : env.writeModelDefOk = true)
    (hgc : ∃ n, env.generateComponentsResult = some n) :
    Ev.writeModelDef
        (env.scaffoldRoot ++ "/" ++ strToLower req.Body.Model.Model ++ "/" ++ version ++
          "/" ++ DefVersion ++ "/" ++ strToLower req.Body.Model.Model ++ ".json")
        (strToLower req.Body.Model.Model) ∈ (RegisterMeshmodels req env).events ∧
    (req.Register = true →
      Ev.registerDir
          (env.scaffoldRoot ++ "/" ++ strToLower req.Body.Model.Model ++ "/" ++ version ++
            "/" ++ DefVersion) ∈ (RegisterMeshmodels req env).events) := by
  obtain ⟨n, hn⟩ := hgc
  simp only [setDefaultValues, modelCSVOfMeta] at hg
  constructor
  · cases hR : req.Register <;>
      simp [RegisterMeshmodels, urlBranch, hU, hD, hg, hb1, hb2, hn, hR,
        CreateVersionedDirectoryForModelAndComp, setDefaultValues, modelCSVOfMeta]
  · intro hR
    simp [RegisterMeshmodels, urlBranch, hU, hD, hg, hb1, hb2, hn, hR,
      CreateVersionedDirectoryForModelAndComp, setDefaultValues, modelCSVOfMeta]

/-- Witness for C8 at a concrete mixed-case request. -/
theorem C8_witness :
    Ev.writeModelDef
        (okImportEnv.scaffoldRoot ++ "/" ++ strToLower urlMixedCaseReq.Body.Model.Model ++
          "/" ++ "v2.3.4" ++ "/" ++ DefVersion ++ "/" ++
          strToLower urlMixedCaseReq.Body.Model.Model ++ ".json")
        (strToLower urlMixedCaseReq.Body.Model.Model) ∈
      (RegisterMeshmodels urlMixedCaseReq okImportEnv).events ∧
    (urlMixedCaseReq.Register = true →
      Ev.registerDir
          (okImportEnv.scaffoldRoot ++ "/" ++ strToLower urlMixedCaseReq.Body.Model.Model ++
            "/" ++ "v2.3.4" ++ "/" ++ DefVersion) ∈
        (RegisterMeshmodels urlMixedCaseReq okImportEnv).events) :=
  C8_lowercase_model_name urlMixedCaseReq okImportEnv "pkg" "v2.3.4"
    rfl rfl rfl rfl rfl ⟨2, rfl⟩

/-! ## Claim C9 -/

/-- C9 (confirmed): a successful export writes the model file with its
`Components` and `Relationships` fields cleared, and every component and
relationship file written carries a back-reference equal to that stripped
model header. -/
theorem C9_strip_and_backref (q : ExportQuery) (env : ExportEnv) (r : ExportResponse)
    (hs : ExportModel q env = .success r) :
    r.writtenModel.Components = none ∧
    r.writtenModel.Relationships = none ∧
    (∀ c ∈ r.writtenComponents, c.Model = r.writtenModel) ∧
    (∀ rl ∈ r.writtenRelationships, rl.Model = r.writtenModel) ∧
    (∃ m rest, env.getEntities (mkModelFilter q) = .ok (Entity.model m :: rest) ∧
      r.writtenModel = (env.replaceSVGModel m).withRefs none none) := by
  simp only [ExportModel, exportResolved, mkModelFilter_resolve] at hs
  rcases hget : env.getEntities (mkModelFilter q) with e | es
  · rw [hget] at hs
    exact absurd hs (by simp)
  · rw [hget] at hs
    rcases es with _ | ⟨ent, rest⟩
    · exact absurd hs (by simp)
    · cases ent with
      | component c => simp only [exportEntity] at hs; exact absurd hs (by simp)
      | relationship rl => simp only [exportEntity] at hs; exact absurd hs (by simp)
      | model m =>
        simp only [exportEntity] at hs
        repeat' split at hs
        all_goals try exact ExportOutcome.noConfusion hs
        all_goals
          injection hs with h
          subst h
          refine ⟨rfl, rfl, ?_, ?_, ⟨m, rest, rfl, rfl⟩⟩
          · intro c hc
            simp only [List.mem_map] at hc
            obtain ⟨c0, _, rfl⟩ := hc
            exact compDef_Model_withModel _ _
          · intro rl hrl
            simp only [List.mem_map] at hrl
            obtain ⟨r0, _, rfl⟩ := hrl
            exact relDef_Model_withModel _ _

/-- Witness for C9 at a concrete successful export of `sampleModel`. -/
theorem C9_witness :
    ∃ r, ExportModel ociQuery okExportEnv = .success r ∧
      (r.writtenModel.Components = none ∧
       r.writtenModel.Relationships = none ∧
       (∀ c ∈ r.writtenComponents, c.Model = r.writtenModel) ∧
       (∀ rl ∈ r.writtenRelationships, rl.Model = r.writtenModel) ∧
       (∃ m rest, okExportEnv.getEntities (mkModelFilter ociQuery) =
          .ok (Entity.model m :: rest) ∧
        r.writtenModel = (okExportEnv.replaceSVGModel m).withRefs none none)) :=
  ⟨_, rfl, C9_strip_and_backref ociQuery okExportEnv _ rfl⟩

/-! ## Claim C10 -/

/-- C10 (confirmed): when the lookup returns a non-empty list the handler
exports exactly the first entity, and the unchecked type assertion panics
precisely when that first entity is not a `ModelDefinition`. -/
theorem C10_first_entity_assertion (q : ExportQuery) (env : ExportEnv) (ent : Entity)
    (rest : List Entity)
    (hget : env.getEntities (mkModelFilter q) = .ok (ent :: rest)) :
    ExportModel q env = exportEntity (resolveExportQuery q) env ent ∧
    (ExportModel q env = .panicked ↔ ∀ m, ent ≠ Entity.model m) := by
  have hbridge := exportModel_ok_cons q env ent rest hget
  refine ⟨hbridge, ?_⟩
  rw [hbridge]
  cases ent with
  | model m =>
    constructor
    · intro hpan
      exact absurd hpan (exportEntity_model_ne_panic (resolveExportQuery q) env m)
    · intro h
      exact absurd rfl (h m)
  | component c => simp [exportEntity]
  | relationship r => simp [exportEntity]

/-- Witness for C10: a registry returning a component first makes the
handler panic. -/
theorem C10_witness :
    ExportModel ociQuery componentFirstExportEnv =
      exportEntity (resolveExportQuery ociQuery) componentFirstExportEnv
        (.component sampleComponent) ∧
    (ExportModel ociQuery componentFirstExportEnv = .panicked ↔
      ∀ m, Entity.component sampleComponent ≠ Entity.model m) :=
  C10_first_entity_assertion ociQuery componentFirstExportEnv
    (.component sampleComponent) [] rfl

end Meshery
